import Mathlib

/-!
Verification of the EasyCode "Project Core" backend (PEVR orchestrator).

This file gives a shallow embedding, in Lean 4, of the safety-critical parts
of the EasyCode backend:

* `app/services/diff_engine.py` — `DiffEngine` (create/validate/apply/rollback
  of `FileDiff` objects, batch apply with stop-on-error, batch rollback);
* `app/services/executor.py` — `CodeExecutor` (step execution, result merging,
  the final batch-apply phase of `execute_plan`, `rollback_action`);
* `app/services/verifier.py` — `Verifier.verify_execution` result aggregation;
* `app/services/llm_service.py` — `SlidingWindowRateLimiter.acquire`;
* the `except VerificationError` branch of `CoreEngine.process_intent`
  (`app/core/engine.py`).

Modelling conventions:

* The workspace filesystem is an association list from workspace-relative
  path strings to file contents (`FS`).  All paths handled by the engine are
  relative to the workspace root, including the backup directory
  `.project_core_backups`, so one flat map models the whole workspace.
* Python strings are Lean `String`s; `str.encode("utf-8")` is modelled by an
  explicit UTF-8 encoder (`utf8Bytes`), and `hashlib.sha256(...).hexdigest()`
  by a full executable SHA-256 (`sha256Hex`).
* Python `datetime.now()` is modelled by a monotone counter (`clock`) carried
  in the engine state; it feeds backup names and `applied_at` stamps.
* Fallible Python code (functions that may raise) returns `Except`.
  Subscripting a `@dataclass` instance (`r["key"]`), which raises `TypeError`
  in Python because dataclasses define no `__getitem__`, is modelled by a
  `getItem` function returning `none`, which the caller turns into an error.
* External effects (the Anthropic API call, test/lint subprocesses) enter the
  model as explicit inputs: an `Except` value for the generation call, a
  `ToolEnv` record of subprocess outcomes for the verifier.
-/

namespace EasyCode

/-! ## Bytes, UTF-8 and SHA-256

Models for `str.encode("utf-8")`, `len(content.encode("utf-8"))` and
`hashlib.sha256(text.encode("utf-8")).hexdigest()` as used by the diff engine.
-/

/-- Encodes one Unicode code point as its UTF-8 byte sequence. -/
def encodeCharUtf8 (n : Nat) : List Nat :=
  if n < 128 then [n]
  else if n < 2048 then [192 + n / 64, 128 + n % 64]
  else if n < 65536 then [224 + n / 4096, 128 + (n / 64) % 64, 128 + n % 64]
  else [240 + n / 262144, 128 + (n / 4096) % 64, 128 + (n / 64) % 64, 128 + n % 64]

/-- Models Python `s.encode("utf-8")`: the UTF-8 byte sequence of a string. -/
def utf8Bytes (s : String) : List Nat :=
  s.data.foldr (fun c acc => encodeCharUtf8 c.toNat ++ acc) []

/-- Models Python `len(s.encode("utf-8"))`. -/
def utf8Len (s : String) : Nat := (utf8Bytes s).length

/-- Truncation to a 32-bit word. -/
def w32 (n : Nat) : Nat := n % 4294967296

/-- Right rotation of a 32-bit word by `k` bits. -/
def rotr (k x : Nat) : Nat := (x >>> k) + ((x % (2 ^ k)) <<< (32 - k))

def bigSigma0 (x : Nat) : Nat := rotr 2 x ^^^ rotr 13 x ^^^ rotr 22 x

def bigSigma1 (x : Nat) : Nat := rotr 6 x ^^^ rotr 11 x ^^^ rotr 25 x

def smallSigma0 (x : Nat) : Nat := rotr 7 x ^^^ rotr 18 x ^^^ (x >>> 3)

def smallSigma1 (x : Nat) : Nat := rotr 17 x ^^^ rotr 19 x ^^^ (x >>> 10)

def chFn (x y z : Nat) : Nat := (x &&& y) ^^^ ((x ^^^ 4294967295) &&& z)

def majFn (x y z : Nat) : Nat := (x &&& y) ^^^ (x &&& z) ^^^ (y &&& z)

/-- SHA-256 round constants (decimal rendering of the standard table). -/
def shaK : List Nat :=
  [1116352408, 1899447441, 3049323471, 3921009573, 961987163, 1508970993,
   2453635748, 2870763221, 3624381080, 310598401, 607225278, 1426881987,
   1925078388, 2162078206, 2614888103, 3248222580, 3835390401, 4022224774,
   264347078, 604807628, 770255983, 1249150122, 1555081692, 1996064986,
   2554220882, 2821834349, 2952996808, 3210313671, 3336571891, 3584528711,
   113926993, 338241895, 666307205, 773529912, 1294757372, 1396182291,
   1695183700, 1986661051, 2177026350, 2456956037, 2730485921, 2820302411,
   3259730800, 3345764771, 3516065817, 3600352804, 4094571909, 275423344,
   430227734, 506948616, 659060556, 883997877, 958139571, 1322822218,
   1537002063, 1747873779, 1955562222, 2024104815, 2227730452, 2361852424,
   2428436474, 2756734187, 3204031479, 3329325298]

/-- SHA-256 initial hash state (decimal rendering of the standard values). -/
def shaH0 : List Nat :=
  [1779033703, 3144134277, 1013904242, 2773480762,
   1359893119, 2600822924, 528734635, 1541459225]

/-- Big-endian byte decomposition of `n` into `k` bytes. -/
def beBytes : Nat → Nat → List Nat
  | 0, _ => []
  | k + 1, n => beBytes k (n / 256) ++ [n % 256]

/-- SHA-256 message padding: append `0x80`, zeros, and the 64-bit bit length. -/
def padMessage (msg : List Nat) : List Nat :=
  let padZeros := (119 - msg.length % 64) % 64
  msg ++ [0x80] ++ List.replicate padZeros 0 ++ beBytes 8 (8 * msg.length)

/-- Splits a byte list into 64-byte blocks (fuel-indexed for structural recursion). -/
def toBlocksAux : Nat → List Nat → List (List Nat)
  | 0, _ => []
  | fuel + 1, l => if l = [] then [] else l.take 64 :: toBlocksAux fuel (l.drop 64)

def toBlocks (l : List Nat) : List (List Nat) := toBlocksAux l.length l

/-- The 16 initial 32-bit words of a 64-byte block (big-endian). -/
def blockWords (b : List Nat) : List Nat :=
  (List.range 16).map (fun i =>
    ((b.getD (4 * i) 0) <<< 24) + ((b.getD (4 * i + 1) 0) <<< 16) +
    ((b.getD (4 * i + 2) 0) <<< 8) + b.getD (4 * i + 3) 0)

/-- One message-schedule extension step. -/
def scheduleStep (ws : List Nat) : List Nat :=
  let i := ws.length
  ws ++ [w32 (smallSigma1 (ws.getD (i - 2) 0) + ws.getD (i - 7) 0 +
              smallSigma0 (ws.getD (i - 15) 0) + ws.getD (i - 16) 0)]

/-- The full 64-word message schedule of a block. -/
def schedule (b : List Nat) : List Nat :=
  (List.range 48).foldl (fun ws _ => scheduleStep ws) (blockWords b)

/-- One SHA-256 compression round on the 8-word working state. -/
def roundStep (h : List Nat) (kw : Nat × Nat) : List Nat :=
  match h with
  | [a, b, c, d, e, f, g, hh] =>
    let t1 := w32 (hh + bigSigma1 e + chFn e f g + kw.1 + kw.2)
    let t2 := w32 (bigSigma0 a + majFn a b c)
    [w32 (t1 + t2), a, b, c, w32 (d + t1), e, f, g]
  | _ => h

/-- Compression of one 64-byte block into the running hash state. -/
def compressBlock (hs : List Nat) (b : List Nat) : List Nat :=
  let fin := (shaK.zip (schedule b)).foldl roundStep hs
  (hs.zip fin).map (fun p => w32 (p.1 + p.2))

/-- SHA-256 digest (32 bytes) of a byte list. -/
def sha256Bytes (msg : List Nat) : List Nat :=
  let hs := (toBlocks (padMessage msg)).foldl compressBlock shaH0
  hs.foldr (fun h acc => beBytes 4 h ++ acc) []

/-- Lower-case hex character for a nibble. -/
def hexChar (n : Nat) : Char := if n < 10 then Char.ofNat (48 + n) else Char.ofNat (87 + n)

/-- Lower-case hex rendering of a byte list. -/
def toHexString (bytes : List Nat) : String :=
  String.mk (bytes.foldr (fun b acc => hexChar (b / 16) :: hexChar (b % 16) :: acc) [])

/-- Models Python `hashlib.sha256(s.encode("utf-8")).hexdigest()`. -/
def sha256Hex (s : String) : String := toHexString (sha256Bytes (utf8Bytes s))

/-! ## The workspace filesystem -/

/-- A workspace filesystem: an association list from workspace-relative path
strings to file contents.  The first matching entry wins on lookup. -/
abbrev FS := List (String × String)

/-- Content of the file at path `p`, if it exists. -/
def FS.lookup : FS → String → Option String
  | [], _ => none
  | (q, c) :: rest, p => if q = p then some c else FS.lookup rest p

/-- Models `Path.exists()` for a workspace-relative path. -/
def FS.pathIsSome (fs : FS) (p : String) : Bool := (fs.lookup p).isSome

/-- Models writing `c` to path `p` (`Path.write_text` / `shutil.copy2` target). -/
def FS.write (fs : FS) (p c : String) : FS :=
  (p, c) :: fs.filter (fun e => e.1 != p)

/-- Models `Path.unlink()` at path `p`. -/
def FS.unlink (fs : FS) (p : String) : FS :=
  fs.filter (fun e => e.1 != p)

theorem FS.lookup_filter_ne (fs : FS) (p q : String) (h : p ≠ q) :
    FS.lookup (fs.filter (fun e => e.1 != p)) q = fs.lookup q := by
  induction fs with
  | nil => rfl
  | cons e rest ih =>
    by_cases he : e.1 = p
    · have : (e.1 != p) = false := by simp [he]
      simp only [List.filter, this]
      rw [ih]
      have : ¬ e.1 = q := by rw [he]; exact h
      simp [FS.lookup, this]
    · have hne : (e.1 != p) = true := by simp [he]
      simp only [List.filter, hne]
      cases e with
      | mk a c =>
        by_cases haq : a = q
        · simp [FS.lookup, haq]
        · simp [FS.lookup, haq, ih]

theorem FS.lookup_write_self (fs : FS) (p c : String) :
    FS.lookup (fs.write p c) p = some c := by
  simp [FS.write, FS.lookup]

theorem FS.lookup_write_ne (fs : FS) (p c : String) (q : String) (h : p ≠ q) :
    FS.lookup (fs.write p c) q = fs.lookup q := by
  simp only [FS.write, FS.lookup, if_neg h]
  exact FS.lookup_filter_ne fs p q h

theorem FS.lookup_unlink_self (fs : FS) (p : String) :
    FS.lookup (fs.unlink p) p = none := by
  induction fs with
  | nil => rfl
  | cons e rest ih =>
    by_cases he : e.1 = p
    · have : (e.1 != p) = false := by simp [he]
      simp only [FS.unlink, List.filter, this]
      exact ih
    · have hne : (e.1 != p) = true := by simp [he]
      simp only [FS.unlink, List.filter, hne]
      simp only [FS.lookup, if_neg he]
      exact ih

theorem FS.lookup_unlink_ne (fs : FS) (p q : String) (h : p ≠ q) :
    FS.lookup (fs.unlink p) q = fs.lookup q :=
  FS.lookup_filter_ne fs p q h

/-! ## String helpers shared by the services -/

/-- Models Python truthiness of an optional string: `None` and `""` are falsy. -/
def strTruthy : Option String → Bool
  | none => false
  | some s => s ≠ ""

/-- Models `Path(p).name`: the part of the path after its last `/`. -/
def fileName (p : String) : String :=
  String.mk (p.data.foldl (fun acc c => if c = '/' then [] else acc ++ [c]) [])

/-- Index of the last `.` in a character list, when any. -/
def lastDotIdx (l : List Char) : Option Nat :=
  ((l.enum.filter (fun q => q.2 = '.')).getLast?).map (fun q => q.1)

/-- Models Python `s.lower()` for the ASCII strings handled here. -/
def strToLower (s : String) : String := String.mk (s.data.map Char.toLower)

/-- Models `Path(p).suffix.lower()`: the final extension of the basename,
with its dot, lower-cased; empty when the basename has no interior dot
(pathlib gives hidden files such as `.env`, and names with only a trailing
dot, an empty suffix). -/
def pathSuffix (p : String) : String :=
  let name := (fileName p).data
  match lastDotIdx name with
  | none => ""
  | some i =>
    if 0 < i ∧ i + 1 < name.length then strToLower (String.mk (name.drop i)) else ""

/-- Models `len(s.splitlines())` for `\n`-separated text (the contents handled
by the engine): the number of newline-terminated or trailing segments;
`""` has zero lines, a trailing newline does not add an empty line. -/
def splitlinesCount (s : String) : Nat :=
  let nl := s.data.count '\n'
  if s.data = [] then 0 else if s.data.getLast? = some (Char.ofNat 10) then nl else nl + 1

/-- Decides whether `needle` starts `hay` (character lists). -/
def charsLeadWith : List Char → List Char → Bool
  | [], _ => true
  | _ :: _, [] => false
  | a :: as, b :: bs => a == b && charsLeadWith as bs

/-- Decides whether `needle` occurs inside `hay` (character lists);
models the Python `in` operator on strings. -/
def charsContain (needle : List Char) : List Char → Bool
  | [] => charsLeadWith needle []
  | b :: bs => charsLeadWith needle (b :: bs) || charsContain needle bs

/-- Models Python `needle in hay` for strings. -/
def strContains (hay needle : String) : Bool := charsContain needle.data hay.data

/-! ## Diff engine data model (`app/services/diff_engine.py`) -/

/-- Models the `DiffOperation` enum. -/
inductive DiffOperation where
  | create
  | modify
  | delete
deriving DecidableEq, Repr

/-- Models the `FileDiff` dataclass.  The `line_changes` dict, whose only keys
are `"additions"` and `"deletions"`, is modelled by the two fields
`additions` and `deletions`; the ISO timestamp `applied_at` is modelled by
the engine clock value at apply time. -/
structure FileDiff where
  operation : DiffOperation
  file_path : String
  original_content : Option String := none
  new_content : Option String := none
  unified_diff : Option String := none
  additions : Nat := 0
  deletions : Nat := 0
  applied : Bool := false
  backup_path : Option String := none
  checksum_before : Option String := none
  checksum_after : Option String := none
  applied_at : Option Nat := none
deriving DecidableEq, Repr

/-- Models the `ApplyResult` dataclass.  Each error dict
`{"index": i, "file": f, "error": e}` is modelled by the triple `(i, f, e)`. -/
structure ApplyResult where
  total : Nat
  applied : Nat
  failed : Nat
  skipped : Nat
  errors : List (Nat × String × String) := []
deriving DecidableEq, Repr

/-- Models the `ApplyResult.success` property. -/
def ApplyResult.success (r : ApplyResult) : Bool := r.failed == 0

/-- Models Python subscripting `r["key"]` on an `ApplyResult` instance.
`ApplyResult` is a plain `@dataclass` and defines no `__getitem__`, so every
subscript raises `TypeError`; this is modelled by returning `none` for every
key, which callers turn into an error. -/
def ApplyResult.getItem (_ : ApplyResult) (_ : String) : Option Nat := none

/-- Models the `RollbackResult` dataclass. -/
structure RollbackResult where
  total : Nat
  rolled_back : Nat
  failed : Nat
deriving DecidableEq, Repr

/-- Models the `RollbackResult.success` property. -/
def RollbackResult.success (r : RollbackResult) : Bool := r.failed == 0

/-- Models Python subscripting `r["key"]` on a `RollbackResult` instance;
like `ApplyResult`, the dataclass defines no `__getitem__`, so every
subscript raises `TypeError` (modelled as `none`). -/
def RollbackResult.getItem (_ : RollbackResult) (_ : String) : Option Nat := none

/-- Models `_MAX_FILE_SIZE_BYTES = 5 * 1024 * 1024`. -/
def maxFileSizeBytes : Nat := 5 * 1024 * 1024

/-- Models `_LARGE_DIFF_LINES = 500`. -/
def largeDiffLines : Nat := 500

/-- Engine state: the workspace filesystem plus a monotone clock standing in
for `datetime.now()` (it feeds backup names and `applied_at` stamps). -/
structure EngineState where
  fs : FS
  clock : Nat := 0
deriving DecidableEq, Repr

/-- Models the fixed backup directory `.project_core_backups` created inside
the workspace root on engine construction. -/
def backupDirName : String := ".project_core_backups"

/-- Models the 6-hex-character `hashlib.md5(str(file_path))[:6]` stem hash
used to keep backups of same-named files apart.  The digest prefix is a
(practically injective) function of the full path; it is modelled by the
full path itself.  No theorem depends on the digest value. -/
def stemHash (p : String) : String := p

/-- Models the backup file name
`f"{file_path.name}.{ts}.{stem_hash}.bak"` inside the backup directory,
with the strftime timestamp modelled by the engine clock. -/
def backupName (p : String) (ts : Nat) : String :=
  backupDirName ++ "/" ++ fileName p ++ "." ++ toString ts ++ "." ++ stemHash p ++ ".bak"

/-- Models `DiffEngine._create_backup`: `None` when the file does not exist,
otherwise copies the current content to a uniquely-named backup file. -/
def createBackup (st : EngineState) (p : String) : Option String × EngineState :=
  match st.fs.lookup p with
  | none => (none, st)
  | some content =>
      let bp := backupName p st.clock
      (some bp, { st with fs := st.fs.write bp content })

/-- Warning text for a CREATE diff whose target already exists. -/
def createExistsWarning (p : String) : String := "CREATE: file already exists - " ++ p

/-- Warning text for a MODIFY/DELETE diff whose target is absent. -/
def notFoundWarning (p : String) : String := "file not found - " ++ p

/-- Warning text for a stale-base checksum mismatch. -/
def integrityWarning (p : String) : String :=
  "INTEGRITY: " ++ p ++ " was modified since diff was created - contents may have changed."

/-- Warning text for the 5 MB size ceiling. -/
def sizeWarning (p : String) : String := "SIZE: " ++ p ++ " exceeds 5 MB limit"

/-- Warning text for a large (over 500 line) change. -/
def largeChangeWarning (p : String) (total : Nat) : String :=
  "Large change: " ++ toString total ++ " lines modified in " ++ p ++
  ". Consider splitting into smaller diffs."

/-- Models the integrity/size/large-change tail of `DiffEngine.validate_diff`
(after the existence checks passed), accumulating warnings in order. -/
def validateDiffRest (fs : FS) (d : FileDiff) : Bool × List String :=
  let ws : List String :=
    if d.operation = DiffOperation.modify ∧ strTruthy d.checksum_before then
      match fs.lookup d.file_path with
      | some cur =>
          if sha256Hex cur ≠ d.checksum_before.getD "" then [integrityWarning d.file_path] else []
      | none => []
    else []
  let content := d.new_content.getD ""
  if utf8Len content > maxFileSizeBytes then
    (false, ws ++ [sizeWarning d.file_path])
  else
    let total := d.additions + d.deletions
    (true, ws ++ (if total > largeDiffLines then [largeChangeWarning d.file_path total] else []))

/-- Models `DiffEngine.validate_diff`: returns `(is_valid, warnings)`.
CREATE fails when the target exists; MODIFY/DELETE fail when it is absent;
then the stale-base checksum comparison (warning only), the hard 5 MB size
ceiling, and the large-change warning, in source order. -/
def validateDiff (fs : FS) (d : FileDiff) : Bool × List String :=
  if d.operation = DiffOperation.create then
    if (fs.lookup d.file_path).isSome then (false, [createExistsWarning d.file_path])
    else validateDiffRest fs d
  else
    if (fs.lookup d.file_path).isSome = false then (false, [notFoundWarning d.file_path])
    else validateDiffRest fs d

/-- Models the `validate_diff` method call at the engine-state level: the
method only reads the filesystem (existence probes and `read_bytes`), so the
state it returns is the state it was given. -/
def validateDiffSt (st : EngineState) (d : FileDiff) : (Bool × List String) × EngineState :=
  (validateDiff st.fs d, st)

/-- Models `diff.new_content or ""`. -/
def newContentStr (d : FileDiff) : String := d.new_content.getD ""

/-- The mutating part of `DiffEngine.apply_diff` once validation passed and
dry-run is off: snapshots MODIFY/DELETE targets to a backup, writes or
unlinks the target, then marks the diff applied and stamps it. -/
def applyOutcome (st : EngineState) (d : FileDiff) : FileDiff × EngineState :=
  let bs :=
    if d.operation = DiffOperation.modify ∨ d.operation = DiffOperation.delete then
      createBackup st d.file_path
    else (d.backup_path, st)
  let d1 : FileDiff := { d with backup_path := bs.1 }
  let st2 : EngineState :=
    match d.operation with
    | DiffOperation.create => { bs.2 with fs := bs.2.fs.write d.file_path (newContentStr d) }
    | DiffOperation.modify => { bs.2 with fs := bs.2.fs.write d.file_path (newContentStr d) }
    | DiffOperation.delete => { bs.2 with fs := bs.2.fs.unlink d.file_path }
  ({ d1 with applied := true, applied_at := some st.clock },
   { st2 with clock := st2.clock + 1 })

/-- Models `DiffEngine.apply_diff`: re-validates (raising on failure), logs
only under dry-run, and otherwise performs the mutation described by
`applyOutcome`. -/
def applyDiff (st : EngineState) (d : FileDiff) (dryRun : Bool) :
    Except String (FileDiff × EngineState) :=
  if (validateDiff st.fs d).1 = false then
    Except.error ("Invalid diff for " ++ d.file_path)
  else if dryRun then
    Except.ok (d, st)
  else
    Except.ok (applyOutcome st d)

/-- Models `DiffEngine.rollback_diff`: a no-op success when the diff was never
applied; for CREATE, unlinks the file if present; for MODIFY/DELETE, restores
from the recorded backup path when one is set (`_restore_backup` silently
does nothing when the backup file itself is missing), otherwise rewrites the
stored original content, and returns `False` — leaving `applied` set — when
neither a backup path nor an original content is recorded. -/
def rollbackDiff (st : EngineState) (d : FileDiff) : Bool × FileDiff × EngineState :=
  if d.applied = false then (true, d, st)
  else
    match d.operation with
    | DiffOperation.create =>
        let fs := if (st.fs.lookup d.file_path).isSome then st.fs.unlink d.file_path else st.fs
        (true, { d with applied := false }, { st with fs := fs })
    | _ =>
        match d.backup_path with
        | some bp =>
            let fs :=
              match st.fs.lookup bp with
              | some content => st.fs.write d.file_path content
              | none => st.fs
            (true, { d with applied := false }, { st with fs := fs })
        | none =>
            match d.original_content with
            | some oc =>
                (true, { d with applied := false }, { st with fs := st.fs.write d.file_path oc })
            | none => (false, d, st)

/-- Loop body of `DiffEngine.rollback_diffs`: one rollback attempt, counted
as a success or a failure, with the updated diff collected. -/
def rollbackStep (acc : Nat × Nat × List FileDiff × EngineState) (d : FileDiff) :
    Nat × Nat × List FileDiff × EngineState :=
  let r := rollbackDiff acc.2.2.2 d
  if r.1 then (acc.1 + 1, acc.2.1, r.2.1 :: acc.2.2.1, r.2.2)
  else (acc.1, acc.2.1 + 1, r.2.1 :: acc.2.2.1, r.2.2)

/-- Models `DiffEngine.rollback_diffs`: iterates over the reversed list,
counting successes and failures independently; the diffs are updated in
place, so the updated list (in original order) is returned alongside. -/
def rollbackDiffs (st : EngineState) (ds : List FileDiff) :
    RollbackResult × List FileDiff × EngineState :=
  let out := ds.reverse.foldl rollbackStep (0, 0, [], st)
  ({ total := ds.length, rolled_back := out.1, failed := out.2.1 }, out.2.2.1, out.2.2.2)

/-- Models the loop body of `DiffEngine.apply_diffs`: applies pending diffs in
order while tracking the index, the processed (and possibly mutated) prefix,
and the running `ApplyResult`; on a failure with `stop_on_error` set, rolls
back every diff applied so far in this batch, subtracts the rolled-back count
from the applied count, and stops. -/
def applyDiffsAux (dryRun stopOnError : Bool) :
    EngineState → List FileDiff → Nat → List FileDiff → ApplyResult →
    ApplyResult × List FileDiff × EngineState
  | st, [], _, done, res => (res, done, st)
  | st, d :: rest, idx, done, res =>
    match applyDiff st d dryRun with
    | Except.ok r =>
        applyDiffsAux dryRun stopOnError r.2 rest (idx + 1) (done ++ [r.1])
          { res with applied := res.applied + 1 }
    | Except.error e =>
        let res1 :=
          { res with
            failed := res.failed + 1
            errors := res.errors ++ [(idx, d.file_path, e)] }
        if stopOnError then
          let rb := rollbackDiffs st done
          ({ res1 with applied := res1.applied - rb.1.rolled_back },
           rb.2.1 ++ d :: rest, rb.2.2)
        else
          applyDiffsAux dryRun stopOnError st rest (idx + 1) (done ++ [d]) res1

/-- Models `DiffEngine.apply_diffs`. -/
def applyDiffs (st : EngineState) (diffs : List FileDiff) (dryRun stopOnError : Bool) :
    ApplyResult × List FileDiff × EngineState :=
  applyDiffsAux dryRun stopOnError st diffs 0 []
    { total := diffs.length, applied := 0, failed := 0, skipped := 0, errors := [] }

/-- Applies a list of diffs in sequence, all succeeding: returns the updated
diffs and the final state, or `none` as soon as one application fails.  Used
to phrase hypotheses about clean prefixes of a batch. -/
def applyChain (st : EngineState) (ds : List FileDiff) :
    Option (List FileDiff × EngineState) :=
  match ds with
  | [] => some ([], st)
  | d :: rest =>
    match applyDiff st d false with
    | Except.ok r => (applyChain r.2 rest).map (fun p => (r.1 :: p.1, p.2))
    | Except.error _ => none

/-! ## Building diffs (`DiffEngine.create_diff`) -/

/-- Models the `difflib.unified_diff` rendering and line counting used by
`create_diff` for MODIFY/DELETE diffs: difflib emits no diff lines (so the
`unified_diff` field stays `None` and both counts are zero) exactly when the
contents are equal; on differing contents it emits a minimal diff, which this
model renders as the full-replacement diff (every new line an addition, every
original line a deletion).  Returns `(unified, additions, deletions)`.  No
theorem in this file depends on the rendered text or on the counts of a
minimal versus full-replacement diff. -/
def unifiedDiffModel (origC newC : String) : Option String × Nat × Nat :=
  if origC = newC then (none, 0, 0)
  else (some ("--- a\n+++ b\n-" ++ origC ++ "\n+" ++ newC),
        splitlinesCount newC, splitlinesCount origC)

/-- Models the local `_sha` helper of `create_diff`: the SHA-256 hexdigest of
the content when it is truthy (neither `None` nor empty), else `None`. -/
def shaOpt (t : Option String) : Option String :=
  if strTruthy t then some (sha256Hex (t.getD "")) else none

/-- Models `DiffEngine.create_diff`: resolves the original content from disk
for MODIFY diffs (silently downgrading to CREATE when the target is absent),
computes the unified diff and line counts, and stamps both checksums. -/
def createDiff (fs : FS) (filePath : String) (newContent : Option String)
    (operation : DiffOperation) (originalContent : Option String) : FileDiff :=
  let resolved :=
    if operation = DiffOperation.modify ∧ originalContent = none then
      match fs.lookup filePath with
      | some c => (DiffOperation.modify, some c)
      | none => (DiffOperation.create, (none : Option String))
    else (operation, originalContent)
  let op := resolved.1
  let orig := resolved.2
  let dl :=
    if op = DiffOperation.modify ∨ op = DiffOperation.delete then
      unifiedDiffModel (orig.getD "") (newContent.getD "")
    else ((none : Option String), splitlinesCount (newContent.getD ""), 0)
  { operation := op
    file_path := filePath
    original_content := orig
    new_content := newContent
    unified_diff := dl.1
    additions := dl.2.1
    deletions := dl.2.2
    checksum_before := shaOpt orig
    checksum_after := shaOpt newContent }

/-! ## Code executor (`app/services/executor.py`) -/

/-- Models the `EXTENSION_TO_LANGUAGE` table. -/
def extensionToLanguage : List (String × String) :=
  [(".py", "python"), (".js", "javascript"), (".jsx", "javascript"),
   (".ts", "typescript"), (".tsx", "typescript"), (".sql", "sql"),
   (".sh", "shell"), (".bash", "shell"), (".yaml", "yaml"), (".yml", "yaml"),
   (".json", "json"), (".md", "markdown"), (".html", "html"), (".css", "css"),
   (".scss", "css"), (".toml", "toml"), (".env", "env")]

/-- Models `CodeExecutor._detect_language`. -/
def detectLanguage (filePath : String) : String :=
  (extensionToLanguage.lookup (pathSuffix filePath)).getD "unknown"

/-- Models `CodeExecutor._stub`: the placeholder content substituted when the
generation call raises.  The Python f-strings use `\\n` (an escaped
backslash), so the stubs contain literal backslash-n sequences, reproduced
here faithfully. -/
def stubCode (filePath language intent : String) : String :=
  let name := fileName filePath
  if language = "python" then
    "\"\"\"\\n" ++ name ++ "\\n\\n" ++ intent ++ "\\n\"\"\"\\n" ++
    "from __future__ import annotations\\n\\n" ++ "# TODO: implement\\n"
  else if language = "typescript" ∨ language = "javascript" then
    "/**\\n * " ++ name ++ "\\n * " ++ intent ++ "\\n */\\n\\n// TODO: implement\\n"
  else if language = "sql" then
    "-- " ++ name ++ "\\n-- " ++ intent ++ "\\n\\n-- TODO: implement\\n"
  else if language = "shell" then
    "#!/usr/bin/env bash\\n# " ++ name ++ " — " ++ intent ++
    "\\nset -euo pipefail\\n\\n# TODO: implement\\n"
  else "# " ++ intent ++ "\\n# TODO: implement\\n"

/-- The line-start markers `_extract_code` accepts as code openers when no
fenced block is present. -/
def codeOpeners : List String := ["#", "//", "/*", "import", "from", "def ", "class "]

/-- Models the fallback branch of `_extract_code`: when the raw output has no
fences and its first line does not look like code, that line is dropped. -/
def stripLeadingProse (raw : String) : String :=
  let lines := raw.trim.splitOn "\n"
  match lines with
  | [] => raw.trim
  | first :: rest =>
    if codeOpeners.any (fun c => first.startsWith c) then raw.trim
    else (String.intercalate "\n" rest).trim

/-- Content of a fenced segment after its opening tag line. -/
def afterFirstNewline (s : String) : String :=
  match s.splitOn "\n" with
  | [] => s
  | _ :: rest => String.intercalate "\n" rest

/-- Models `CodeExecutor._extract_code`.  The Python uses regular expressions
to collect fenced code blocks (language-tagged first, then any) and returns
the longest match stripped; with no fences it falls back to dropping a
leading prose line.  Modelled here by splitting on the fence marker: the
odd-indexed segments are the fenced blocks, each taken after its tag line,
and the longest is returned trimmed.  No theorem depends on the details of
this extraction. -/
def extractCode (raw : String) : String :=
  let parts := raw.splitOn "```"
  if parts.length ≥ 3 then
    let candidates := (parts.enum.filter (fun p => p.1 % 2 = 1)).map
      (fun p => afterFirstNewline p.2)
    (candidates.foldl (fun acc c => if acc.length < c.length then c else acc) "").trim
  else stripLeadingProse raw

/-- Models `CodeExecutor._generate_new_file`: the outcome of the LLM call
enters as an `Except` value; on success the code is extracted from the raw
response, and a raised generation error is caught and replaced by the stub. -/
def generateNewFile (llmOutcome : Except String String)
    (filePath language intent : String) : String :=
  match llmOutcome with
  | Except.ok raw => extractCode raw
  | Except.error _ => stubCode filePath language intent

/-- Models `CodeExecutor._generate_modification`: on success the extracted
code is kept unless it is implausibly short relative to the original, in
which case (as on a raised generation error) the original content plus a
TODO marker is returned instead. -/
def generateModification (llmOutcome : Except String String)
    (original intent : String) : String :=
  match llmOutcome with
  | Except.ok raw =>
    let code := extractCode raw
    if code.length < 20 ∧ original.length > 50 then
      original ++ "\n\n# TODO: " ++ intent ++ "\n"
    else code
  | Except.error _ => original ++ "\n\n# TODO: " ++ intent ++ "\n"

/-- Models one plan step dict as consumed by `_execute_step_inner`
(`step.get("action", "modify")`, `step.get("file_path", "")`,
`step.get("code_intent", "")`). -/
structure PlanStep where
  action : String := "modify"
  file_path : String := ""
  code_intent : String := ""
deriving DecidableEq, Repr

/-- Models the per-step result dict returned by `_execute_step_inner`. -/
structure StepResult where
  success : Bool
  diff : Option FileDiff := none
  file_path : String := ""
  action : String := ""
  error : Option String := none
deriving DecidableEq, Repr

/-- Models `CodeExecutor._execute_step_inner`: builds a create/modify/delete
diff for the step via the diff engine, generating content through the LLM
(whose outcome is the `llmOutcome` input); unknown actions and a missing
file path produce a failed step result. -/
def executeStepInner (fs : FS) (llmOutcome : Except String String)
    (step : PlanStep) : StepResult :=
  if step.file_path = "" then
    { success := false, error := some "No file_path specified in step" }
  else
    let language := detectLanguage step.file_path
    if step.action = "create" then
      let code := generateNewFile llmOutcome step.file_path language step.code_intent
      { success := true
        diff := some (createDiff fs step.file_path (some code) DiffOperation.create none)
        file_path := step.file_path
        action := "create" }
    else if step.action = "modify" then
      let original := (fs.lookup step.file_path).getD ""
      let modified := generateModification llmOutcome original step.code_intent
      { success := true
        diff := some (createDiff fs step.file_path (some modified) DiffOperation.modify
                       (some original))
        file_path := step.file_path
        action := "modify" }
    else if step.action = "delete" then
      { success := true
        diff := some (createDiff fs step.file_path (some "") DiffOperation.delete none)
        file_path := step.file_path
        action := "delete" }
    else
      { success := false, error := some ("Unknown action: " ++ step.action) }

/-- Models the mutable `results` dict built by `execute_plan`. -/
structure ExecResults where
  files_created : List String := []
  files_modified : List String := []
  files_deleted : List String := []
  files_generated : Nat := 0
  diffs : List FileDiff := []
  errors : List String := []
  success : Bool := true
  dry_run : Bool := false
deriving DecidableEq, Repr

/-- Models one iteration of `CodeExecutor._merge_results`: a successful step
result carrying a diff contributes the diff and its file path; a failed one
appends its error message and flips the overall success flag; a successful
result without a diff changes nothing. -/
def mergeStep (res : ExecResults) (step : PlanStep) (r : StepResult) : ExecResults :=
  match r.success, r.diff with
  | true, some dobj =>
    let res1 :=
      { res with
        diffs := res.diffs ++ [dobj]
        files_generated := res.files_generated + 1 }
    if step.action = "create" then
      { res1 with files_created := res1.files_created ++ [step.file_path] }
    else if step.action = "modify" then
      { res1 with files_modified := res1.files_modified ++ [step.file_path] }
    else if step.action = "delete" then
      { res1 with files_deleted := res1.files_deleted ++ [step.file_path] }
    else res1
  | true, none => res
  | false, _ =>
    { res with
      errors := res.errors ++ [r.error.getD "Unknown error"]
      success := false }

/-- Models `CodeExecutor._merge_results` over a zipped list of steps and
their results.  (In the source, a step that raised would arrive as an
`Exception` instance from `asyncio.gather`; `_execute_step_inner` catches all
exceptions itself and returns a failure dict, which is what `StepResult`
models.) -/
def mergeResults (res : ExecResults) (pairs : List (PlanStep × StepResult)) : ExecResults :=
  pairs.foldl (fun acc p => mergeStep acc p.1 p.2) res

/-- Error text for the `TypeError` raised when `execute_plan` subscripts the
`ApplyResult` dataclass. -/
def typeErrorApplyResult : String := "TypeError: ApplyResult object is not subscriptable"

/-- Models the final batch-apply phase of `CodeExecutor.execute_plan` (its
tail, after all step results have been merged into `results`): when diffs
were collected and this is not a dry run, they are submitted to the diff
engine as one batch with `stop_on_error=True`; the source then evaluates
`apply_result["failed"]`, a subscript on the `ApplyResult` dataclass, which
raises `TypeError` (the intended branch would flip `success` and append an
error message when the batch reports failures). -/
def executePlanApplyPhase (st : EngineState) (results : ExecResults) (dryRun : Bool) :
    Except String (ExecResults × EngineState) :=
  if results.diffs ≠ [] ∧ dryRun = false then
    let ar := applyDiffs st results.diffs false true
    match ar.1.getItem "failed" with
    | none => Except.error typeErrorApplyResult
    | some failedCount =>
        if failedCount > 0 then
          Except.ok ({ results with
                       success := false
                       errors := results.errors ++ ["diff(s) failed to apply; rolled back."] },
                     ar.2.2)
        else Except.ok (results, ar.2.2)
  else Except.ok (results, st)

/-! ## Action rollback (`CodeExecutor.rollback_action` and
`CoreEngine.process_intent`) -/

/-- Models the fields of a persisted `Diff` row (`app/models/database.py`)
that `rollback_action` reads when rebuilding `FileDiff` objects. -/
structure DiffRecord where
  operation : DiffOperation
  file_path : String
  original_content : Option String := none
  new_content : Option String := none
  unified_diff : Option String := none
deriving DecidableEq, Repr

/-- Models the `FileDiff(...)` reconstruction inside `rollback_action`: only
the five listed fields are passed, so every other field keeps its dataclass
default — in particular `applied=False` and `backup_path=None`. -/
def FileDiff.ofRecord (r : DiffRecord) : FileDiff :=
  { operation := r.operation
    file_path := r.file_path
    original_content := r.original_content
    new_content := r.new_content
    unified_diff := r.unified_diff }

/-- Error text for the `TypeError` raised when `rollback_action` subscripts
the `RollbackResult` dataclass. -/
def typeErrorRollbackResult : String := "TypeError: RollbackResult object is not subscriptable"

/-- Models `CodeExecutor.rollback_action`: with no recorded diffs it logs and
returns; otherwise it rebuilds `FileDiff` objects from the rows (with
dataclass defaults for `applied` and `backup_path`), passes them to
`rollback_diffs`, and then evaluates `result["rolled_back"]` in its final log
call — a subscript on the `RollbackResult` dataclass, which raises
`TypeError`. -/
def rollbackAction (st : EngineState) (records : List DiffRecord) :
    Except String EngineState :=
  if records = [] then Except.ok st
  else
    let out := rollbackDiffs st (records.map FileDiff.ofRecord)
    match out.1.getItem "rolled_back" with
    | none => Except.error typeErrorRollbackResult
    | some _ => Except.ok out.2.2

/-- Models `CoreEngine._rollback`: any exception from `rollback_action` is
caught and logged, leaving the state as it was. -/
def engineRollback (st : EngineState) (records : List DiffRecord) : EngineState :=
  match rollbackAction st records with
  | Except.ok st1 => st1
  | Except.error _ => st

/-- Models the `ActionStatus` enum (`app/models/database.py`). -/
inductive ActionStatus where
  | pending
  | planning
  | executing
  | verifying
  | completed
  | failed
  | cancelled
  | rolled_back
deriving DecidableEq, Repr

/-- Models the `except VerificationError` branch of
`CoreEngine.process_intent`: the orchestrator invokes rollback (exceptions
inside it are swallowed by `_rollback`), then sets the action status to
`ROLLED_BACK` and records the error message.  Returns the final status, the
recorded error, and the resulting workspace state. -/
def handleVerificationFailure (st : EngineState) (records : List DiffRecord)
    (errMsg : String) : ActionStatus × Option String × EngineState :=
  (ActionStatus.rolled_back, some errMsg, engineRollback st records)

/-! ## Rate limiter (`app/services/llm_service.py`) -/

/-- Models `SlidingWindowRateLimiter`: timestamps are integers (seconds), the
deque is a list with its head at the left. -/
structure RateLimiter where
  max_requests : Nat
  period : Int
  timestamps : List Int
deriving DecidableEq, Repr

/-- Models `SlidingWindowRateLimiter.acquire` at time `now`: expires entries
at or before `now - period` from the head of the deque, then raises
`RateLimitError` — recording nothing — when the remaining count has reached
`max_requests`, and otherwise appends its own timestamp.  Returns the call
outcome together with the updated limiter. -/
def rlAcquire (rl : RateLimiter) (now : Int) : Except String Unit × RateLimiter :=
  let cutoff := now - rl.period
  let remaining := rl.timestamps.dropWhile (fun t => decide (t ≤ cutoff))
  if rl.max_requests ≤ remaining.length then
    (Except.error "Rate limit reached", { rl with timestamps := remaining })
  else
    (Except.ok (), { rl with timestamps := remaining ++ [now] })

/-! ## Verifier (`app/services/verifier.py`) -/

/-- Models the `TestResult` dataclass (the float `duration_seconds`, unused by
any verified property, is omitted). -/
structure TestResult where
  tests_run : Nat := 0
  tests_passed : Nat := 0
  tests_failed : Nat := 0
  tests_skipped : Nat := 0
  output : String := ""
  errors : List String := []
  passed : Bool := false
deriving DecidableEq, Repr

/-- Models the `LintResult` dataclass. -/
structure LintResult where
  valid : Bool := true
  errors : List String := []
  warnings : List String := []
  tool : String := ""
deriving DecidableEq, Repr

/-- Models the `VerificationReport` dataclass; `syn_valid` models the
source field recording whether all changed files parsed cleanly, and the
float coverage percentage is modelled as a natural number when present. -/
structure VerificationReport where
  passed : Bool
  tests_run : Nat
  tests_passed : Nat
  tests_failed : Nat
  tests_skipped : Nat
  test_output : String
  syn_valid : Bool
  lint_valid : Bool
  errors : List String
  warnings : List String
  coverage_percent : Option Nat := none
  lint_details : List String := []
  framework_used : String := ""
deriving DecidableEq, Repr

/-- Outcomes of the external tool invocations made by `verify_execution`:
the pytest / npm subprocess runs, the `package.json` script probe, the
parallel per-file parse checks (`synOk`/`synErrors` model the pair returned
by `_check_syntax_parallel`), the linter run, and the parsed coverage. -/
structure ToolEnv where
  pytestResult : TestResult
  npmResult : TestResult
  npmHasTestScript : Bool
  synOk : Bool
  synErrors : List String
  lintResult : LintResult
  coverage : Option Nat
deriving DecidableEq, Repr

/-- Decides whether `needle` ends `hay` (character lists). -/
def charsEndWith (needle hay : List Char) : Bool :=
  charsLeadWith needle.reverse hay.reverse

/-- Models the `test_*.py` basename pattern of `workspace.rglob`. -/
def isTestFile (p : String) : Bool :=
  charsLeadWith "test_".data (fileName p).data && charsEndWith ".py".data (fileName p).data

/-- Models `Verifier._has_pytest`: any of the four config/convention files at
the workspace root, or any `test_*.py` anywhere in the workspace. -/
def hasPytest (fs : FS) : Bool :=
  (fs.lookup "pytest.ini").isSome || (fs.lookup "pyproject.toml").isSome ||
  (fs.lookup "setup.cfg").isSome || (fs.lookup "conftest.py").isSome ||
  fs.any (fun e => isTestFile e.1)

/-- Models `Verifier._has_npm_test`: `False` without a `package.json`;
otherwise whether its parsed `scripts` table declares `test` (the parse
outcome enters through the tool environment). -/
def hasNpmTest (fs : FS) (env : ToolEnv) : Bool :=
  if (fs.lookup "package.json").isSome = false then false else env.npmHasTestScript

/-- Models `"syntax error" in e.lower()`. -/
def lowerContainsSynError (e : String) : Bool := strContains (strToLower e) "syntax error"

/-- Models `Verifier.verify_execution`: picks the test framework (absence of
any framework marks the run trivially passed), gathers errors from the test
run, the parallel parse checks and the linter (only when files changed),
computes the aggregate pass flag, and assembles the size-bounded report. -/
def verifyExecution (fs : FS) (env : ToolEnv)
    (filesCreated filesModified : List String) : VerificationReport :=
  let fr :=
    if hasPytest fs then ("pytest", env.pytestResult)
    else if hasNpmTest fs env then ("npm", env.npmResult)
    else ("", ({ passed := true } : TestResult))
  let framework := fr.1
  let testResult := fr.2
  let coverage := if framework = "pytest" then env.coverage else none
  let changed := filesCreated ++ filesModified
  let agg :=
    if changed ≠ [] then
      (env.synOk,
       testResult.errors ++ (if env.synOk then [] else env.synErrors) ++ env.lintResult.errors,
       env.lintResult.warnings, env.lintResult)
    else (true, testResult.errors, ([] : List String), ({} : LintResult))
  let synOk := agg.1
  let allErrors := agg.2.1
  let allWarnings := agg.2.2.1
  let lintResult := agg.2.2.2
  let passed := testResult.passed && synOk && lintResult.valid &&
                !(allErrors.any lowerContainsSynError)
  { passed := passed
    tests_run := testResult.tests_run
    tests_passed := testResult.tests_passed
    tests_failed := testResult.tests_failed
    tests_skipped := testResult.tests_skipped
    test_output := testResult.output.take 8000
    syn_valid := synOk
    lint_valid := lintResult.valid
    errors := allErrors.take 20
    warnings := allWarnings.take 20
    coverage_percent := coverage
    lint_details := lintResult.errors.take 10
    framework_used := framework }

/-! ## Helper lemmas -/

theorem shaOpt_eq_none_iff (t : Option String) :
    shaOpt t = none ↔ (t = none ∨ t = some "") := by
  cases t with
  | none => simp [shaOpt, strTruthy]
  | some s =>
    by_cases hs : s = ""
    · subst hs; simp [shaOpt, strTruthy]
    · simp [shaOpt, strTruthy, hs]

theorem shaOpt_eq_some (s : String) (hs : s ≠ "") :
    shaOpt (some s) = some (sha256Hex s) := by
  simp [shaOpt, strTruthy, hs]

theorem backupName_ne (p : String) (ts : Nat) : backupName p ts ≠ p := by
  intro h
  have hd := congrArg (fun s : String => s.data.length) h
  simp only [backupName, stemHash, String.data_append, List.length_append] at hd
  have h4 : ".bak".data.length = 4 := rfl
  rw [h4] at hd
  omega

theorem rollbackStep_unapplied (st : EngineState) (a b : Nat) (acc : List FileDiff)
    (d : FileDiff) (hd : d.applied = false) :
    rollbackStep (a, b, acc, st) d = (a + 1, b, d :: acc, st) := by
  simp [rollbackStep, rollbackDiff, hd]

theorem rollbackDiffs_fold_unapplied (l : List FileDiff) :
    ∀ (st : EngineState) (a b : Nat) (acc : List FileDiff),
    (∀ d ∈ l, d.applied = false) →
    l.foldl rollbackStep (a, b, acc, st) = (a + l.length, b, l.reverse ++ acc, st) := by
  induction l with
  | nil => intro st a b acc _; simp
  | cons d t ih =>
    intro st a b acc h
    have hd : d.applied = false := h d (List.mem_cons_self d t)
    have ht : ∀ x ∈ t, x.applied = false := fun x hx => h x (List.mem_cons_of_mem d hx)
    rw [List.foldl_cons, rollbackStep_unapplied st a b acc d hd, ih st (a + 1) b (d :: acc) ht]
    simp only [List.reverse_cons, List.length_cons]
    have h1 : a + 1 + t.length = a + (t.length + 1) := by omega
    rw [h1]
    simp [List.append_assoc]

theorem rollbackDiffs_unapplied (st : EngineState) (ds : List FileDiff)
    (h : ∀ d ∈ ds, d.applied = false) :
    rollbackDiffs st ds =
      ({ total := ds.length, rolled_back := ds.length, failed := 0 }, ds, st) := by
  unfold rollbackDiffs
  have hr : ∀ d ∈ ds.reverse, d.applied = false := fun d hd =>
    h d (List.mem_reverse.mp hd)
  rw [rollbackDiffs_fold_unapplied ds.reverse st 0 0 [] hr]
  simp

/-! ## C1 — the batch-apply phase of `execute_plan` -/

/-- C1: The claim states that when `execute_plan` runs with `dry_run=False`
and at least one diff was collected, the failure count of the batch result drives
the success flag.  In the source, `apply_result["failed"]` subscripts the
`ApplyResult` dataclass, which defines no `__getitem__`, so the whole phase
raises `TypeError` before the success flag can ever be updated: for every
state and every result set with at least one collected diff, the apply phase
of `execute_plan` terminates with the `TypeError`, not with an updated
success flag. -/
theorem c1_execute_plan_apply_phase_raises (st : EngineState) (results : ExecResults)
    (dryRun : Bool) (hdiffs : results.diffs ≠ []) (hdry : dryRun = false) :
    executePlanApplyPhase st results dryRun = Except.error typeErrorApplyResult := by
  simp [executePlanApplyPhase, ApplyResult.getItem, hdiffs, hdry]

def c1wDiff : FileDiff :=
  { operation := DiffOperation.create, file_path := "a.py", new_content := some "pass" }

/-- C1 witness: a concrete plan execution that collected one create diff and
runs without dry-run hits the `TypeError`. -/
theorem c1_witness :
    executePlanApplyPhase { fs := [], clock := 0 } { diffs := [c1wDiff] } false =
      Except.error typeErrorApplyResult :=
  c1_execute_plan_apply_phase_raises { fs := [], clock := 0 } { diffs := [c1wDiff] } false
    (fun h => List.noConfusion h) rfl

/-! ## C2 — rollback on verification failure -/

/-- C2: The claim states that on a failed verification, `process_intent`
rolls back every diff recorded for the action, restoring each affected file,
and finishes in status `rolled_back`.  The terminal status is indeed
`rolled_back` (and a failure inside the rollback does not change it), but no
file is ever restored: `rollback_action` rebuilds `FileDiff` objects from
the persisted rows with the dataclass default `applied=False`, so every
`rollback_diff` call is a no-op, and its closing log line then subscripts
the `RollbackResult` dataclass, raising a `TypeError` that `_rollback`
swallows.  For every workspace state, every recorded diff list and every
error message, the verification-failure handler leaves the workspace
bit-for-bit unchanged — and already the inner `rollback_diffs` pass reports
every reconstructed diff as successfully rolled back while touching
nothing. -/
theorem c2_verification_failure_restores_nothing (st : EngineState)
    (records : List DiffRecord) (errMsg : String) :
    handleVerificationFailure st records errMsg =
      (ActionStatus.rolled_back, some errMsg, st) ∧
    rollbackDiffs st (records.map FileDiff.ofRecord) =
      ({ total := records.length, rolled_back := records.length, failed := 0 },
       records.map FileDiff.ofRecord, st) := by
  have hun : ∀ d ∈ records.map FileDiff.ofRecord, d.applied = false := by
    intro d hd
    rcases List.mem_map.mp hd with ⟨r, _, hrd⟩
    rw [← hrd]
    rfl
  have hrb := rollbackDiffs_unapplied st (records.map FileDiff.ofRecord) hun
  constructor
  · by_cases hr : records = []
    · subst hr; rfl
    · unfold handleVerificationFailure engineRollback rollbackAction
      rw [if_neg hr]
      rfl
  · rw [hrb]
    simp

/-! ## C9 — the sliding-window rate limiter -/

/-- The timestamps inside the sliding window: strictly newer than
`now - period`, exactly the entries `acquire` keeps when expiring the
deque.  This is the claim-side characterization of "recorded timestamps
within the last `period` seconds", compared below against the
head-expiry loop of the implementation. -/
def windowTimestamps (rl : RateLimiter) (now : Int) : List Int :=
  rl.timestamps.filter (fun t => decide (now - rl.period < t))

theorem dropWhile_le_eq_filter_gt (c : Int) (l : List Int)
    (h : l.Pairwise (· ≤ ·)) :
    l.dropWhile (fun t => decide (t ≤ c)) = l.filter (fun t => decide (c < t)) := by
  induction l with
  | nil => rfl
  | cons a t ih =>
    rcases List.pairwise_cons.mp h with ⟨ha, ht⟩
    rw [List.dropWhile_cons, List.filter_cons]
    by_cases hc : a ≤ c
    · rw [show decide (a ≤ c) = true from decide_eq_true hc,
          show decide (c < a) = false from decide_eq_false (not_lt.mpr hc)]
      simp [ih ht]
    · have hca : c < a := lt_of_not_le hc
      have hall : ∀ x ∈ t, decide (c < x) = true := fun x hx =>
        decide_eq_true (lt_of_lt_of_le hca (ha x hx))
      rw [show decide (a ≤ c) = false from decide_eq_false hc,
          show decide (c < a) = true from decide_eq_true hca]
      simp [List.filter_eq_self.mpr hall]

/-- C9: For every limiter state whose deque is sorted (which every state
reachable by `acquire` is, timestamps being appended in monotone order) and
every call time, `acquire` raises exactly when the number of recorded
timestamps still inside the sliding window `(now - period, now]` has reached
`max_requests`; a successful call appends exactly its own timestamp after
the expired entries are dropped, and a rejected call appends nothing. -/
theorem c9_rate_limiter_acquire (rl : RateLimiter) (now : Int)
    (hs : rl.timestamps.Pairwise (· ≤ ·)) :
    ((∃ e, (rlAcquire rl now).1 = Except.error e) ↔
       rl.max_requests ≤ (windowTimestamps rl now).length) ∧
    ((rlAcquire rl now).1 = Except.ok () →
       (rlAcquire rl now).2.timestamps = windowTimestamps rl now ++ [now]) ∧
    (∀ e, (rlAcquire rl now).1 = Except.error e →
       (rlAcquire rl now).2.timestamps = windowTimestamps rl now) := by
  have hdw := dropWhile_le_eq_filter_gt (now - rl.period) rl.timestamps hs
  simp only [rlAcquire, windowTimestamps]
  rw [hdw]
  by_cases hfull :
      rl.max_requests ≤ (rl.timestamps.filter (fun t => decide (now - rl.period < t))).length
  · simp [hfull]
  · simp [hfull]

def c9wRl : RateLimiter := { max_requests := 2, period := 10, timestamps := [0, 5] }

/-- C9 witness: with a window of 2 requests per 10 seconds and both recorded
timestamps still inside the window at time 6, the theorem applies and the
full window makes a rejection possible exactly as characterized. -/
theorem c9_witness :
    ((∃ e, (rlAcquire c9wRl 6).1 = Except.error e) ↔
       c9wRl.max_requests ≤ (windowTimestamps c9wRl 6).length) ∧
    ((rlAcquire c9wRl 6).1 = Except.ok () →
       (rlAcquire c9wRl 6).2.timestamps = windowTimestamps c9wRl 6 ++ [6]) ∧
    (∀ e, (rlAcquire c9wRl 6).1 = Except.error e →
       (rlAcquire c9wRl 6).2.timestamps = windowTimestamps c9wRl 6) :=
  c9_rate_limiter_acquire c9wRl 6 (by decide)

/-! ## C10 — checksum truthiness in `create_diff` and the integrity skip -/

/-- C10: For every call of `create_diff`, the checksums of the returned diff are
`None` exactly when the corresponding content (the resolved original, the
new content) is `None` or empty — the local `_sha` helper tests Python
truthiness, under which the empty string is falsy; for truthy content the
SHA-256 hexdigest is stored.  And `validate_diff` skips the on-disk
integrity comparison for any diff whose `checksum_before` is `None`: its
result does not depend on the stored content of the target file. -/
theorem c10_create_diff_checksums (fs : FS) (fp : String) (nc : Option String)
    (op : DiffOperation) (oc : Option String) :
    ((createDiff fs fp nc op oc).checksum_after = none ↔ (nc = none ∨ nc = some "")) ∧
    ((createDiff fs fp nc op oc).checksum_before = none ↔
       ((createDiff fs fp nc op oc).original_content = none ∨
        (createDiff fs fp nc op oc).original_content = some "")) ∧
    (∀ s, nc = some s → s ≠ "" →
       (createDiff fs fp nc op oc).checksum_after = some (sha256Hex s)) ∧
    (∀ (d : FileDiff) (c c2 : String), d.checksum_before = none →
       validateDiff ((d.file_path, c) :: fs) d = validateDiff ((d.file_path, c2) :: fs) d) := by
  refine ⟨?_, ?_, ?_, ?_⟩
  · show shaOpt nc = none ↔ _
    exact shaOpt_eq_none_iff nc
  · show shaOpt (createDiff fs fp nc op oc).original_content = none ↔ _
    exact shaOpt_eq_none_iff _
  · intro s hnc hs
    subst hnc
    show shaOpt (some s) = _
    exact shaOpt_eq_some s hs
  · intro d c c2 hcb
    have hlk : ∀ c0 : String, FS.lookup ((d.file_path, c0) :: fs) d.file_path = some c0 := by
      intro c0; simp [FS.lookup]
    have hrest : ∀ c0 : String,
        validateDiffRest ((d.file_path, c0) :: fs) d = validateDiffRest fs d := by
      intro c0
      unfold validateDiffRest
      rw [show strTruthy d.checksum_before = false by rw [hcb]; rfl]
      simp
    unfold validateDiff
    rw [hlk c, hlk c2, hrest c, hrest c2]
    simp

def c10wD : FileDiff :=
  { operation := DiffOperation.modify, file_path := "m.py", new_content := some "z" }

/-- C10 witness: a create diff over empty content carries no post-checksum, a
delete diff with no original carries no pre-checksum, and validation of a
checksum-less modify diff is unchanged when the on-disk content changes. -/
theorem c10_witness :
    (createDiff [] "a.py" (some "") DiffOperation.create none).checksum_after = none ∧
    (createDiff [] "d.py" none DiffOperation.delete none).checksum_before = none ∧
    validateDiff [("m.py", "x")] c10wD = validateDiff [("m.py", "y")] c10wD :=
  ⟨(c10_create_diff_checksums [] "a.py" (some "") DiffOperation.create none).1.mpr
     (Or.inr rfl),
   (c10_create_diff_checksums [] "d.py" none DiffOperation.delete none).2.1.mpr
     (Or.inl rfl),
   (c10_create_diff_checksums [] "m.py" none DiffOperation.modify none).2.2.2
     c10wD "x" "y" rfl⟩

/-! ## C8 — verification with no detected test framework -/

/-- C8: For every verification run on a workspace in which neither pytest
nor an npm test script is detected, whose parallel parse checks found no
problems, and whose linter reported no errors, the assembled report has
`passed = true` and `tests_run = 0`: the absence of a framework marks the
test phase trivially passed with zero tests. -/
theorem c8_no_framework_trivially_passes (fs : FS) (env : ToolEnv)
    (created modified : List String)
    (hpy : hasPytest fs = false) (hnpm : hasNpmTest fs env = false)
    (hsyn : env.synOk = true)
    (hlintV : env.lintResult.valid = true) (hlintE : env.lintResult.errors = []) :
    (verifyExecution fs env created modified).passed = true ∧
    (verifyExecution fs env created modified).tests_run = 0 := by
  unfold verifyExecution
  rw [hpy, hnpm]
  by_cases hch : created ++ modified = []
  · simp [hch, TestResult.errors]
  · simp [hch, hsyn, hlintV, hlintE, TestResult.errors]

def c8wEnv : ToolEnv :=
  { pytestResult := {}, npmResult := {}, npmHasTestScript := false,
    synOk := true, synErrors := [], lintResult := {}, coverage := none }

/-- C8 witness: a workspace holding one plain source file (no test
configuration, no `test_*.py`, no `package.json`), one changed file, clean
parse and lint results. -/
theorem c8_witness :
    (verifyExecution [("a.py", "x = 1")] c8wEnv ["a.py"] []).passed = true ∧
    (verifyExecution [("a.py", "x = 1")] c8wEnv ["a.py"] []).tests_run = 0 :=
  c8_no_framework_trivially_passes [("a.py", "x = 1")] c8wEnv ["a.py"] []
    (by decide) (by decide) rfl rfl rfl

/-! ## C3 — `rollback_diff` for modify/delete diffs -/

def c3St : EngineState := { fs := [("a.py", "NEW")], clock := 1 }

def c3Diff : FileDiff :=
  { operation := DiffOperation.modify, file_path := "a.py", new_content := some "NEW",
    applied := true, backup_path := some (backupName "a.py" 0) }

/-- C3 counterexample: an applied modify diff that records a backup path
whose backup file no longer exists (backups can be removed underneath a
live diff, e.g. by `cleanup_backups`) and stores no original content.  The
claim requires either a restoration or a `False` return here — there is
neither a backup nor stored original content able to restore the file — yet
`rollback_diff` returns `True`, leaves the workspace untouched, and the
target file still holds the post-apply content. -/
theorem c3_counterexample :
    c3Diff.applied = true ∧
    c3Diff.operation = DiffOperation.modify ∧
    c3St.fs.lookup (backupName "a.py" 0) = none ∧
    c3Diff.original_content = none ∧
    (rollbackDiff c3St c3Diff).1 = true ∧
    (rollbackDiff c3St c3Diff).2.2 = c3St ∧
    (rollbackDiff c3St c3Diff).2.2.fs.lookup "a.py" = some "NEW" :=
  ⟨rfl, rfl, rfl, rfl, rfl, rfl, rfl⟩

/-- C3 (amended): For every applied modify or delete diff, `rollback_diff`
branches on the recorded backup path, not on the existence of the backup
file: with a recorded backup path it restores the file only when the backup
file still exists, and silently returns `True` without restoring anything
when the backup file is missing; with no recorded backup path it rewrites
the stored original content when one is present; and it returns `False` —
leaving the diff marked applied — exactly when the diff records no backup
path and stores no original content. -/
theorem c3_amended_rollback (st : EngineState) (d : FileDiff)
    (happ : d.applied = true)
    (hop : d.operation = DiffOperation.modify ∨ d.operation = DiffOperation.delete) :
    ((rollbackDiff st d).1 = false ↔ d.backup_path = none ∧ d.original_content = none) ∧
    (∀ bp c, d.backup_path = some bp → st.fs.lookup bp = some c →
       rollbackDiff st d =
         (true, { d with applied := false }, { st with fs := st.fs.write d.file_path c })) ∧
    (∀ bp, d.backup_path = some bp → st.fs.lookup bp = none →
       rollbackDiff st d = (true, { d with applied := false }, st)) ∧
    (∀ oc, d.backup_path = none → d.original_content = some oc →
       rollbackDiff st d =
         (true, { d with applied := false }, { st with fs := st.fs.write d.file_path oc })) ∧
    (d.backup_path = none → d.original_content = none →
       rollbackDiff st d = (false, d, st)) := by
  refine ⟨?_, ?_, ?_, ?_, ?_⟩
  · cases hbp : d.backup_path with
    | some bp =>
      rcases hop with hop | hop <;>
        simp [rollbackDiff, happ, hop, hbp]
    | none =>
      cases hoc : d.original_content with
      | some oc =>
        rcases hop with hop | hop <;>
          simp [rollbackDiff, happ, hop, hbp, hoc]
      | none =>
        rcases hop with hop | hop <;>
          simp [rollbackDiff, happ, hop, hbp, hoc]
  · intro bp c hbp hlk
    rcases hop with hop | hop <;>
      simp [rollbackDiff, happ, hop, hbp, hlk]
  · intro bp hbp hlk
    rcases hop with hop | hop <;>
      simp [rollbackDiff, happ, hop, hbp, hlk]
  · intro oc hbp hoc
    rcases hop with hop | hop <;>
      simp [rollbackDiff, happ, hop, hbp, hoc]
  · intro hbp hoc
    rcases hop with hop | hop <;>
      simp [rollbackDiff, happ, hop, hbp, hoc]

def c3wSt : EngineState :=
  { fs := [(backupName "b.py" 0, "x = 1\n"), ("b.py", "x = 2\n")], clock := 1 }

def c3wDiff : FileDiff :=
  { operation := DiffOperation.delete, file_path := "b.py",
    applied := true, backup_path := some (backupName "b.py" 0) }

/-- C3 witness: an applied delete diff whose recorded backup file exists is
restored from that backup by the amended characterization. -/
theorem c3_witness :
    rollbackDiff c3wSt c3wDiff =
      (true, { c3wDiff with applied := false },
       { c3wSt with fs := c3wSt.fs.write "b.py" "x = 1\n" }) :=
  (c3_amended_rollback c3wSt c3wDiff rfl (Or.inr rfl)).2.1
    (backupName "b.py" 0) "x = 1\n" rfl (by decide)

/-! ## C6 — step failure when code generation raises -/

def c6Step : PlanStep := { action := "create", file_path := "a.py", code_intent := "add x" }

/-- C6 counterexample: a create step whose generation call raises.  The
claim says the step is marked failed and contributes no diff; in the source
the exception is caught inside `_generate_new_file`, which substitutes the
stub content, so the step result is successful, carries a diff, and the
merge adds that diff to the batch without flipping the success flag. -/
theorem c6_counterexample :
    (executeStepInner [] (Except.error "LLM unavailable") c6Step).success = true ∧
    (executeStepInner [] (Except.error "LLM unavailable") c6Step).diff.isSome = true ∧
    (mergeResults {} [(c6Step, executeStepInner [] (Except.error "LLM unavailable") c6Step)]).diffs.length = 1 ∧
    (mergeResults {} [(c6Step, executeStepInner [] (Except.error "LLM unavailable") c6Step)]).success = true ∧
    (mergeResults {} [(c6Step, executeStepInner [] (Except.error "LLM unavailable") c6Step)]).errors = [] :=
  ⟨rfl, rfl, rfl, rfl, rfl⟩

/-- C6 (amended): When the generation call for a step raises, the step is
not marked failed: fallback content is substituted — the language stub for
a create step, the original content plus a TODO marker for a modify step —
and the step still succeeds, contributing a diff to the batch.  Steps are
marked failed (and contribute no diff) only for a missing file path or an
unknown action; merging such a failed result appends its error and flips
the overall success flag while leaving the diff set unchanged, and merging
proceeds through the remaining steps regardless. -/
theorem c6_generation_failure_uses_fallback (fs : FS) (step : PlanStep) (e : String)
    (hfp : step.file_path ≠ "") :
    (step.action = "create" →
       executeStepInner fs (Except.error e) step =
         { success := true
           diff := some (createDiff fs step.file_path
             (some (stubCode step.file_path (detectLanguage step.file_path) step.code_intent))
             DiffOperation.create none)
           file_path := step.file_path
           action := "create" }) ∧
    (step.action = "modify" →
       executeStepInner fs (Except.error e) step =
         { success := true
           diff := some (createDiff fs step.file_path
             (some (((fs.lookup step.file_path).getD "") ++ "\n\n# TODO: " ++
                    step.code_intent ++ "\n"))
             DiffOperation.modify (some ((fs.lookup step.file_path).getD "")))
           file_path := step.file_path
           action := "modify" }) ∧
    (∀ (res : ExecResults) (r : StepResult), r.success = false →
       (mergeResults res [(step, r)]).success = false ∧
       (mergeResults res [(step, r)]).diffs = res.diffs ∧
       (mergeResults res [(step, r)]).errors = res.errors ++ [r.error.getD "Unknown error"]) ∧
    (∀ (res : ExecResults) (ps qs : List (PlanStep × StepResult)),
       mergeResults res (ps ++ qs) = mergeResults (mergeResults res ps) qs) := by
  refine ⟨?_, ?_, ?_, ?_⟩
  · intro hact
    simp [executeStepInner, hfp, hact, generateNewFile]
  · intro hact
    have hnc : step.action ≠ "create" := by rw [hact]; decide
    simp [executeStepInner, hfp, hact, generateModification]
  · intro res r hr
    simp [mergeResults, mergeStep, hr]
  · intro res ps qs
    simp [mergeResults, List.foldl_append]

def c6wStepM : PlanStep := { action := "modify", file_path := "m.py", code_intent := "tweak" }

/-- C6 witness: the amended characterization applied to a concrete create
step and a concrete modify step whose generation calls raise, plus a merge
of a concrete failed step result. -/
theorem c6_witness :
    executeStepInner [] (Except.error "boom") c6Step =
      { success := true
        diff := some (createDiff [] "a.py"
          (some (stubCode "a.py" (detectLanguage "a.py") "add x"))
          DiffOperation.create none)
        file_path := "a.py"
        action := "create" } ∧
    executeStepInner [("m.py", "x = 1\n")] (Except.error "boom") c6wStepM =
      { success := true
        diff := some (createDiff [("m.py", "x = 1\n")] "m.py"
          (some ("x = 1\n" ++ "\n\n# TODO: " ++ "tweak" ++ "\n"))
          DiffOperation.modify (some "x = 1\n"))
        file_path := "m.py"
        action := "modify" } ∧
    (mergeResults {} [({ action := "create" : PlanStep },
        { success := false, error := some "No file_path specified in step" })]).success = false :=
  ⟨(c6_generation_failure_uses_fallback [] c6Step "boom" (by decide)).1 rfl,
   (c6_generation_failure_uses_fallback [("m.py", "x = 1\n")] c6wStepM "boom"
      (by decide)).2.1 rfl,
   ((c6_generation_failure_uses_fallback [] c6Step "boom" (by decide)).2.2.1
      {} { success := false, error := some "No file_path specified in step" } rfl).1⟩

/-! ## C5 — apply then rollback restores the pre-apply state -/

theorem applyDiff_ok_outcome (st : EngineState) (d : FileDiff) (r : FileDiff × EngineState)
    (happly : applyDiff st d false = Except.ok r) : r = applyOutcome st d := by
  by_cases hval : (validateDiff st.fs d).1 = false
  · simp only [applyDiff, if_pos hval] at happly
    exact absurd happly (by simp)
  · simp only [applyDiff, if_neg hval] at happly
    simp at happly
    exact happly.symm

/-- C5: For every workspace state and every diff that applies successfully
(not in dry-run), rolling the applied diff back restores the pre-apply state
of the target file: after a create-diff round trip the file is absent, and
after a modify-diff round trip — for a diff whose stored original is the
pre-apply on-disk content, with its checksum stamped as `create_diff`
stamps non-empty originals — the file again holds exactly the original
content, the diff is unmarked, and the stored pre-image checksum is the
SHA-256 of that restored content. -/
theorem c5_apply_rollback_roundtrip (st : EngineState) (d : FileDiff)
    (r : FileDiff × EngineState)
    (happly : applyDiff st d false = Except.ok r) :
    (d.operation = DiffOperation.create →
       FS.lookup (rollbackDiff r.2 r.1).2.2.fs d.file_path = none) ∧
    (∀ orig, d.operation = DiffOperation.modify →
       st.fs.lookup d.file_path = some orig →
       d.original_content = some orig →
       d.checksum_before = some (sha256Hex orig) →
       FS.lookup (rollbackDiff r.2 r.1).2.2.fs d.file_path = some orig ∧
       (rollbackDiff r.2 r.1).2.1.applied = false ∧
       r.1.checksum_before = some (sha256Hex orig)) := by
  have hr := applyDiff_ok_outcome st d r happly
  subst hr
  constructor
  · intro hop
    have hcond : ¬ (d.operation = DiffOperation.modify ∨ d.operation = DiffOperation.delete) := by
      rw [hop]
      rintro (h | h) <;> exact DiffOperation.noConfusion h
    simp only [applyOutcome, if_neg hcond]
    simp [hop, rollbackDiff, FS.lookup_write_self, FS.lookup_unlink_self]
  · intro orig hop horig hoc hsum
    have hcond : d.operation = DiffOperation.modify ∨ d.operation = DiffOperation.delete :=
      Or.inl hop
    have hne : d.file_path ≠ backupName d.file_path st.clock :=
      fun h => backupName_ne d.file_path st.clock h.symm
    simp only [applyOutcome, if_pos hcond, createBackup, horig]
    simp [hop, rollbackDiff, FS.lookup_write_ne _ _ _ _ hne, FS.lookup_write_self, hsum]

def c5wSt : EngineState := { fs := [("a.py", "x = 1\n")], clock := 0 }

def c5wD : FileDiff :=
  { operation := DiffOperation.modify, file_path := "a.py",
    original_content := some "x = 1\n", new_content := some "x = 2\n",
    checksum_before := some (sha256Hex "x = 1\n"),
    checksum_after := some (sha256Hex "x = 2\n") }

def c5wCSt : EngineState := { fs := [], clock := 0 }

def c5wCD : FileDiff :=
  { operation := DiffOperation.create, file_path := "n.py", new_content := some "pass" }

/-- C5 witness: a concrete create round trip leaves the file absent, and a
concrete modify round trip (`x = 1` to `x = 2` and back) restores the
original content whose SHA-256 is the stored pre-image checksum. -/
theorem c5_witness :
    FS.lookup (rollbackDiff (applyOutcome c5wCSt c5wCD).2
      (applyOutcome c5wCSt c5wCD).1).2.2.fs "n.py" = none ∧
    FS.lookup (rollbackDiff (applyOutcome c5wSt c5wD).2
      (applyOutcome c5wSt c5wD).1).2.2.fs "a.py" = some "x = 1\n" ∧
    (applyOutcome c5wSt c5wD).1.checksum_before = some (sha256Hex "x = 1\n") :=
  ⟨(c5_apply_rollback_roundtrip c5wCSt c5wCD (applyOutcome c5wCSt c5wCD) rfl).1 rfl,
   ((c5_apply_rollback_roundtrip c5wSt c5wD (applyOutcome c5wSt c5wD) rfl).2
      "x = 1\n" rfl rfl rfl rfl).1,
   ((c5_apply_rollback_roundtrip c5wSt c5wD (applyOutcome c5wSt c5wD) rfl).2
      "x = 1\n" rfl rfl rfl rfl).2.2⟩

/-! ## C4 — batch apply with stop-on-error -/

theorem applyDiffsAux_cons_ok (st : EngineState) (d : FileDiff) (rest : List FileDiff)
    (idx : Nat) (done : List FileDiff) (res : ApplyResult) (r : FileDiff × EngineState)
    (h : applyDiff st d false = Except.ok r) :
    applyDiffsAux false true st (d :: rest) idx done res =
      applyDiffsAux false true r.2 rest (idx + 1) (done ++ [r.1])
        { res with applied := res.applied + 1 } := by
  simp only [applyDiffsAux]
  rw [h]

theorem applyDiffsAux_cons_error (st : EngineState) (d : FileDiff) (rest : List FileDiff)
    (idx : Nat) (done : List FileDiff) (res : ApplyResult) (e : String)
    (h : applyDiff st d false = Except.error e) :
    applyDiffsAux false true st (d :: rest) idx done res =
      ({ res with
         applied := res.applied - (rollbackDiffs st done).1.rolled_back
         failed := res.failed + 1
         errors := res.errors ++ [(idx, d.file_path, e)] },
       (rollbackDiffs st done).2.1 ++ d :: rest, (rollbackDiffs st done).2.2) := by
  simp only [applyDiffsAux]
  rw [h]
  simp

theorem applyChain_shift (pre : List FileDiff) :
    ∀ (st st1 : EngineState) (pre' : List FileDiff),
    applyChain st pre = some (pre', st1) →
    ∀ (rest : List FileDiff) (idx : Nat) (done : List FileDiff) (res : ApplyResult),
    applyDiffsAux false true st (pre ++ rest) idx done res =
    applyDiffsAux false true st1 rest (idx + pre.length) (done ++ pre')
      { res with applied := res.applied + pre.length } := by
  induction pre with
  | nil =>
    intro st st1 pre' h rest idx done res
    simp only [applyChain, Option.some.injEq, Prod.mk.injEq] at h
    rcases h with ⟨h1, h2⟩
    subst h1
    subst h2
    simp
  | cons d t ih =>
    intro st st1 pre' h rest idx done res
    simp only [applyChain] at h
    cases ha : applyDiff st d false with
    | error e => rw [ha] at h; simp at h
    | ok r =>
      rw [ha] at h
      rcases Option.map_eq_some'.mp h with ⟨p, hp, hq⟩
      rcases Prod.mk.injEq .. ▸ hq with ⟨hq1, hq2⟩
      subst hq1
      subst hq2
      rw [List.cons_append, applyDiffsAux_cons_ok st d (t ++ rest) idx done res r ha,
          ih r.2 p.2 p.1 hp rest (idx + 1) (done ++ [r.1])
            { res with applied := res.applied + 1 }]
      have e1 : idx + (t.length + 1) = idx + 1 + t.length := by omega
      have e2 : done ++ (r.1 :: p.1) = (done ++ [r.1]) ++ p.1 := by simp
      have e3 : res.applied + (t.length + 1) = res.applied + 1 + t.length := by omega
      simp only [List.length_cons, e1, e2, e3]

/-- C4: For every batch whose first `k` diffs apply cleanly and whose diff
at index `k` fails, `apply_diffs` with `stop_on_error=true` applies diffs
`0..k-1`, never attempts diffs `k+1..n` (they are returned untouched and
leave no trace in the final state), rolls back the diffs applied so far in
reverse order (the `rollback_diffs` pass over the applied prefix) before
returning, and reports an applied count equal to `k` minus the number
successfully rolled back, one failure, and the single error entry at index
`k`. -/
theorem c4_batch_stop_on_error (st st1 : EngineState) (pre pre' post : List FileDiff)
    (dk : FileDiff) (e : String)
    (hchain : applyChain st pre = some (pre', st1))
    (hfail : applyDiff st1 dk false = Except.error e) :
    applyDiffs st (pre ++ dk :: post) false true =
      ({ total := pre.length + (post.length + 1)
         applied := pre.length - (rollbackDiffs st1 pre').1.rolled_back
         failed := 1
         skipped := 0
         errors := [(pre.length, dk.file_path, e)] },
       (rollbackDiffs st1 pre').2.1 ++ dk :: post,
       (rollbackDiffs st1 pre').2.2) := by
  unfold applyDiffs
  rw [applyChain_shift pre st st1 pre' hchain (dk :: post) 0 [] _,
      applyDiffsAux_cons_error st1 dk post (0 + pre.length) ([] ++ pre') _ e hfail]
  simp [List.length_append]

def c4wD0 : FileDiff :=
  { operation := DiffOperation.create, file_path := "a.py", new_content := some "pass" }

def c4wDbad : FileDiff :=
  { operation := DiffOperation.modify, file_path := "b.py", new_content := some "y" }

def c4wSt : EngineState := { fs := [], clock := 0 }

def c4wD0u : FileDiff := { c4wD0 with applied := true, applied_at := some 0 }

def c4wSt1 : EngineState := { fs := FS.write [] "a.py" "pass", clock := 1 }

/-- C4 witness: a two-diff batch whose second diff (a modify of a missing
file) fails at index 1: the first create is applied then rolled back, the
reported applied count drops to `1 - 1`, and the failing entry is recorded
at index 1. -/
theorem c4_witness :
    applyDiffs c4wSt ([c4wD0] ++ c4wDbad :: []) false true =
      ({ total := 1 + (0 + 1)
         applied := 1 - (rollbackDiffs c4wSt1 [c4wD0u]).1.rolled_back
         failed := 1
         skipped := 0
         errors := [(1, "b.py", "Invalid diff for b.py")] },
       (rollbackDiffs c4wSt1 [c4wD0u]).2.1 ++ c4wDbad :: [],
       (rollbackDiffs c4wSt1 [c4wD0u]).2.2) :=
  c4_batch_stop_on_error c4wSt c4wSt1 [c4wD0] [c4wD0u] [] c4wDbad
    "Invalid diff for b.py" rfl rfl

/-! ## C7 — `validate_diff` -/

theorem validateDiffRest_fst_false_iff (fs : FS) (d : FileDiff) :
    (validateDiffRest fs d).1 = false ↔ utf8Len (newContentStr d) > maxFileSizeBytes := by
  unfold validateDiffRest
  by_cases h : utf8Len (d.new_content.getD "") > maxFileSizeBytes
  · simp [h, newContentStr]
  · simp [h, newContentStr]

theorem utf8Len_replicate_a (n : Nat) : utf8Len (String.mk (List.replicate n 'a')) = n := by
  induction n with
  | zero => rfl
  | succ k ih =>
    have hstep : utf8Bytes (String.mk (List.replicate (k + 1) 'a')) =
        encodeCharUtf8 'a'.toNat ++ utf8Bytes (String.mk (List.replicate k 'a')) := by
      simp [utf8Bytes, List.replicate_succ]
    unfold utf8Len at ih ⊢
    rw [hstep, show encodeCharUtf8 'a'.toNat = [97] from rfl]
    simp only [List.length_append, List.length_cons, List.length_nil, ih]
    omega

/-- C7: `validate_diff` is invalid exactly for a create whose target exists,
a modify/delete whose target is absent, or new content above the 5 MiB
ceiling, regardless of operation type; the method never mutates the
filesystem (it only reads); and both a stale-base checksum mismatch and a
change of more than 500 lines leave the diff valid, contributing only a
non-fatal warning. -/
theorem c7_validate_diff (st : EngineState) (d : FileDiff) :
    ((validateDiff st.fs d).1 = false ↔
       (d.operation = DiffOperation.create ∧ (st.fs.lookup d.file_path).isSome = true) ∨
       (d.operation ≠ DiffOperation.create ∧ (st.fs.lookup d.file_path).isSome = false) ∨
       utf8Len (newContentStr d) > maxFileSizeBytes) ∧
    validateDiffSt st d = (validateDiff st.fs d, st) ∧
    (∀ cur, d.operation = DiffOperation.modify →
       st.fs.lookup d.file_path = some cur →
       strTruthy d.checksum_before = true →
       sha256Hex cur ≠ d.checksum_before.getD "" →
       utf8Len (newContentStr d) ≤ maxFileSizeBytes →
       (validateDiff st.fs d).1 = true ∧
       integrityWarning d.file_path ∈ (validateDiff st.fs d).2) ∧
    (((d.operation = DiffOperation.create ∧ (st.fs.lookup d.file_path).isSome = false) ∨
      (d.operation ≠ DiffOperation.create ∧ (st.fs.lookup d.file_path).isSome = true)) →
     utf8Len (newContentStr d) ≤ maxFileSizeBytes →
     d.additions + d.deletions > largeDiffLines →
     (validateDiff st.fs d).1 = true ∧
     largeChangeWarning d.file_path (d.additions + d.deletions) ∈ (validateDiff st.fs d).2) := by
  refine ⟨?_, rfl, ?_, ?_⟩
  · by_cases hop : d.operation = DiffOperation.create
    · by_cases hlk : (st.fs.lookup d.file_path).isSome = true
      · simp [validateDiff, hop, hlk]
      · simp only [validateDiff, if_pos hop]
        rw [if_neg hlk, validateDiffRest_fst_false_iff]
        simp [hop, hlk]
    · by_cases hlk : (st.fs.lookup d.file_path).isSome = true
      · simp only [validateDiff, if_neg hop]
        rw [if_neg (show ¬ (st.fs.lookup d.file_path).isSome = false by rw [hlk]; decide),
            validateDiffRest_fst_false_iff]
        simp [hop, hlk]
      · simp only [validateDiff, if_neg hop]
        rw [if_pos (show (st.fs.lookup d.file_path).isSome = false from by
              simpa using hlk)]
        simp [hop, hlk]
  · intro cur hop hlk hcb hmis hsz
    have hnc : d.operation ≠ DiffOperation.create := by
      rw [hop]; exact fun h => DiffOperation.noConfusion h
    have hns : ¬ utf8Len (d.new_content.getD "") > maxFileSizeBytes := by
      simpa [newContentStr] using Nat.not_lt.mpr hsz
    simp only [validateDiff, if_neg hnc]
    rw [if_neg (show ¬ (st.fs.lookup d.file_path).isSome = false by rw [hlk]; simp)]
    unfold validateDiffRest
    simp only [hop, hcb, hlk, hmis, true_and, if_true, if_neg hns]
    simp [hmis]
  · intro hex hsz hlines
    have hns : ¬ utf8Len (d.new_content.getD "") > maxFileSizeBytes := by
      simpa [newContentStr] using Nat.not_lt.mpr hsz
    rcases hex with ⟨hop, hlk⟩ | ⟨hop, hlk⟩
    · simp only [validateDiff, if_pos hop]
      rw [if_neg (show ¬ (st.fs.lookup d.file_path).isSome = true by rw [hlk]; decide)]
      unfold validateDiffRest
      simp only [if_neg hns]
      simp [hlines, List.mem_append]
    · simp only [validateDiff, if_neg hop]
      rw [if_neg (show ¬ (st.fs.lookup d.file_path).isSome = false by rw [hlk]; decide)]
      unfold validateDiffRest
      simp only [if_neg hns]
      simp [hlines, List.mem_append]

def bigStr : String := String.mk (List.replicate 5242881 'a')

def c7wCreate : FileDiff :=
  { operation := DiffOperation.create, file_path := "e.py", new_content := some "pass" }

def c7wModMissing : FileDiff :=
  { operation := DiffOperation.modify, file_path := "ghost.py", new_content := some "y" }

def c7wBig : FileDiff :=
  { operation := DiffOperation.delete, file_path := "big.py", new_content := some bigStr }

def c7wMis : FileDiff :=
  { operation := DiffOperation.modify, file_path := "m.py", new_content := some "y",
    checksum_before := some "zz" }

def c7wLarge : FileDiff :=
  { operation := DiffOperation.delete, file_path := "l.py",
    additions := 300, deletions := 250 }

/-- C7 witness: a create over an existing file and a modify of a missing
file are invalid; a 5 MiB + 1 byte delete payload is invalid despite its
operation type; a stale-base checksum mismatch and a 550-line change are
valid with their respective warnings recorded. -/
theorem c7_witness :
    (validateDiff [("e.py", "x")] c7wCreate).1 = false ∧
    (validateDiff [] c7wModMissing).1 = false ∧
    (validateDiff [("big.py", "x")] c7wBig).1 = false ∧
    ((validateDiff [("m.py", "x")] c7wMis).1 = true ∧
      integrityWarning "m.py" ∈ (validateDiff [("m.py", "x")] c7wMis).2) ∧
    ((validateDiff [("l.py", "x")] c7wLarge).1 = true ∧
      largeChangeWarning "l.py" (c7wLarge.additions + c7wLarge.deletions) ∈
        (validateDiff [("l.py", "x")] c7wLarge).2) :=
  ⟨(c7_validate_diff { fs := [("e.py", "x")] } c7wCreate).1.mpr (Or.inl ⟨rfl, rfl⟩),
   (c7_validate_diff { fs := [] } c7wModMissing).1.mpr
     (Or.inr (Or.inl ⟨by decide, rfl⟩)),
   (c7_validate_diff { fs := [("big.py", "x")] } c7wBig).1.mpr
     (Or.inr (Or.inr (by
       rw [show newContentStr c7wBig = bigStr from rfl, bigStr, utf8Len_replicate_a]
       decide))),
   (c7_validate_diff { fs := [("m.py", "x")] } c7wMis).2.2.1 "x" rfl rfl (by decide)
     (by decide) (by decide),
   (c7_validate_diff { fs := [("l.py", "x")] } c7wLarge).2.2.2
     (Or.inr ⟨by decide, rfl⟩) (by decide) (by decide)⟩

end EasyCode
